/-
  Verification of the haefele-connect-mesh integration against its
  natural-language specification.

  The Python source is shallowly embedded: pure functions become Lean
  functions, Python `float` arithmetic is modelled over `ℚ` (exact for the
  small dyadic values these claims evaluate at; `round` is modelled as
  round-half-to-even, Python's semantics), Python `int` becomes `ℤ` or `ℕ`,
  raising an exception becomes returning `Except.error`, and the stateful
  rate limiter / polling coordinator become explicit state-passing functions
  over an idealized monotonic clock.
-/
import Mathlib

/-! ## Python semantics helpers -/

/-- Python's built-in `round` on a rational: round half to even
(banker's rounding), returning an integer. -/
def pyRound (q : ℚ) : ℤ :=
  if q - ⌊q⌋ < 1/2 then ⌊q⌋
  else if 1/2 < q - ⌊q⌋ then ⌊q⌋ + 1
  else if ⌊q⌋ % 2 = 0 then ⌊q⌋ else ⌊q⌋ + 1

theorem pyRound_intCast (n : ℤ) : pyRound (n : ℚ) = n := by
  unfold pyRound
  rw [Int.floor_intCast]
  norm_num

/-- The exceptions the embedded code can raise (`src/exceptions.py` plus the
Python built-ins the code can hit).  Message strings are elided; the fields
kept are the ones the code branches on (`status_code`, `error_code`). -/
inductive PyExc where
  | hafele (statusCode : Option ℤ) (errorCode : Option String)
  | validation
  | valueError
  | attributeError
  deriving DecidableEq, Repr

/-- A Python runtime value, as far as the embedded comparisons need:
a `DeviceType` enum member or a `str`.  Used to model `Enum.__eq__`,
which returns `False` when the other operand is not an enum member. -/
inductive PyVal (τ : Type) where
  | enumMember (t : τ)
  | str (s : String)
  deriving DecidableEq

/-- Python `==` between the values of `PyVal`: equal only within one type;
an enum member never equals a plain string. -/
def pyEq {τ : Type} [BEq τ] : PyVal τ → PyVal τ → Bool
  | .enumMember a, .enumMember b => a == b
  | .str a, .str b => a == b
  | _, _ => false

/-- Python's `str.startswith`: the candidate is a character-wise
prefix of the string. -/
def strStartsWith (s p : String) : Bool := p.data.isPrefixOf s.data

/-- Python's `all(f(x) for x in xs)` where evaluating `f` may raise:
short-circuits on the first falsy result; an exception raised while
evaluating a member propagates. -/
def pyAll {α : Type} (f : α → Except PyExc Bool) : List α → Except PyExc Bool
  | [] => .ok true
  | x :: xs =>
    match f x with
    | .error e => .error e
    | .ok false => .ok false
    | .ok true => pyAll f xs

/-! ## DeviceType (src/custom_components/haefele_connect_mesh/models/device.py)

The `DeviceType(Enum)` members, their string values, and the capability
properties computed by prefix-matching on the string value. -/

inductive DeviceType where
  | LEDVANCE_SOCKET
  | JUNG_SOCKET
  | NIMBUS_PAD_DIRECT
  | NIMBUS_PAD_INDIRECT
  | NIMBUS_LEGGERA
  | NIMBUS_Q_CLASSIC_MW
  | NIMBUS_Q_CUBIC_MW
  | NIMBUS_Q_FOUR_MW
  | NIMBUS_ZEN
  | HAEFELE_TVLIFT
  | HAEFELE_MOTOR
  | HAEFELE_WARDROBE_LIFT
  | HAEFELE_PUSHLOCK
  | HAEFELE_PUSHLOCK_5S
  | HAEFELE_LED_RGB
  | HAEFELE_LED_RGB_SPOT
  | HAEFELE_LED_MW_SPOT
  | HAEFELE_LED_MW_2200K
  | HAEFELE_LED_MW_2700K
  | HAEFELE_LED_MW_2WIRE_MONO_SPOT
  | HAEFELE_LED_MW_2WIRE_MONO_STRIPE
  | HAEFELE_LED_MW_2WIRE_MW_SPOT
  | HAEFELE_LED_MW_2WIRE_MW_STRIPE
  | HAEFELE_LED_WHITE
  | HAEFELE_LED_WHITE_STRIP
  | HAEFELE_SOCKET
  | HAEFELE_MOTION_SENSOR
  | HAEFELE_FURNITURE_SENSOR_MAINS
  | HAEFELE_FURNITURE_SENSOR_BATTERY
  | HAEFELE_WALLCONTROLLER
  | HAEFELE_Q_DEV_MW
  | HAEFELE_Q_DEV_MONO
  | GENERIC_LED_MW
  | GENERIC_LED_WHITE
  | GENERIC_LED_RGB
  | GENERIC_LEVEL
  | NORDIC_DEVKIT_LEVEL
  deriving DecidableEq, BEq, Repr

namespace DeviceType

/-- The `value` of each enum member (the manufacturer/product string). -/
def value : DeviceType → String
  | .LEDVANCE_SOCKET => "de.ledvance.socket"
  | .JUNG_SOCKET => "de.jung.socket"
  | .NIMBUS_PAD_DIRECT => "de.nimbus.lighting.pad.direct"
  | .NIMBUS_PAD_INDIRECT => "de.nimbus.lighting.pad.indirect"
  | .NIMBUS_LEGGERA => "de.nimbus.leggera"
  | .NIMBUS_Q_CLASSIC_MW => "de.nimbus.q.classic.multiwhite"
  | .NIMBUS_Q_CUBIC_MW => "de.nimbus.q.cubic.multiwhite"
  | .NIMBUS_Q_FOUR_MW => "de.nimbus.q.four.multiwhite"
  | .NIMBUS_ZEN => "de.nimbus.zen"
  | .HAEFELE_TVLIFT => "com.haefele.tvlift"
  | .HAEFELE_MOTOR => "com.haefele.motor"
  | .HAEFELE_WARDROBE_LIFT => "com.haefele.lift.wardrobe"
  | .HAEFELE_PUSHLOCK => "com.haefele.pushlock"
  | .HAEFELE_PUSHLOCK_5S => "com.haefele.pushlock.5s"
  | .HAEFELE_LED_RGB => "com.haefele.led.rgb"
  | .HAEFELE_LED_RGB_SPOT => "com.haefele.led.rgb.spot"
  | .HAEFELE_LED_MW_SPOT => "com.haefele.led.multiwhite.spot"
  | .HAEFELE_LED_MW_2200K => "com.haefele.led.multiwhite.2200K"
  | .HAEFELE_LED_MW_2700K => "com.haefele.led.multiwhite.2700K"
  | .HAEFELE_LED_MW_2WIRE_MONO_SPOT => "com.haefele.led.multiwhite.2wire.monochrome.spot"
  | .HAEFELE_LED_MW_2WIRE_MONO_STRIPE => "com.haefele.led.multiwhite.2wire.monochrome.stripe"
  | .HAEFELE_LED_MW_2WIRE_MW_SPOT => "com.haefele.led.multiwhite.2wire.mw.spot"
  | .HAEFELE_LED_MW_2WIRE_MW_STRIPE => "com.haefele.led.multiwhite.2wire.mw.stripe"
  | .HAEFELE_LED_WHITE => "com.haefele.led.white"
  | .HAEFELE_LED_WHITE_STRIP => "com.haefele.led.white.strip"
  | .HAEFELE_SOCKET => "com.haefele.socket"
  | .HAEFELE_MOTION_SENSOR => "com.haefele.motion.sensor"
  | .HAEFELE_FURNITURE_SENSOR_MAINS => "com.haefele.furniture.sensor.mains"
  | .HAEFELE_FURNITURE_SENSOR_BATTERY => "com.haefele.furniture.sensor.battery"
  | .HAEFELE_WALLCONTROLLER => "com.haefele.wallcontroller.actuator"
  | .HAEFELE_Q_DEV_MW => "com.haefele.q.dev.multiwhite"
  | .HAEFELE_Q_DEV_MONO => "com.haefele.q.dev.monochrome"
  | .GENERIC_LED_MW => "com.generic.led.multiwhite"
  | .GENERIC_LED_WHITE => "com.generic.led.white"
  | .GENERIC_LED_RGB => "com.generic.led.rgb"
  | .GENERIC_LEVEL => "com.generic.level"
  | .NORDIC_DEVKIT_LEVEL => "com.nordic.devkit.level"

/-- `DeviceType.is_light`: `any(self.value.startswith(p) for p in [...])`. -/
def is_light (t : DeviceType) : Bool :=
  ["com.haefele.led", "com.generic.led", "de.nimbus"].any
    fun p => strStartsWith t.value p

/-- `DeviceType.supports_color_temp`. -/
def supports_color_temp (t : DeviceType) : Bool :=
  ["com.haefele.led.multiwhite", "de.nimbus.q",
    "com.haefele.q.dev.multiwhite", "com.generic.led.multiwhite"].any
    fun p => strStartsWith t.value p

/-- `DeviceType.supports_hsl`. -/
def supports_hsl (t : DeviceType) : Bool :=
  ["com.haefele.led.rgb", "com.generic.led.rgb"].any
    fun p => strStartsWith t.value p

/-- `DeviceType.is_socket`. -/
def is_socket (t : DeviceType) : Bool :=
  ["de.ledvance.socket", "com.haefele.socket", "de.jung.socket"].any
    fun p => strStartsWith t.value p

/-- The attribute names defined on the `DeviceType` enum class (its
properties and classmethod) together with the `Enum` member attributes.
`startswith` is a `str` method; `DeviceType` is a plain `Enum` (no `str`
mixin), so its members do not have it. -/
def attrNames : List String :=
  ["is_light", "supports_color_temp", "supports_hsl", "is_socket",
    "manufacturer", "from_str", "name", "value"]

/-- Python `hasattr` on a `DeviceType` member. -/
def hasAttr (s : String) : Bool := attrNames.contains s

end DeviceType

/-! ## Device (models/device.py)

Only the fields the claims touch are modelled: the parsed `_type`
(capability flags are pure functions of it) and the mutable
`_last_updated` timestamp, modelled as a natural-number reading of an
idealized non-decreasing wall clock. -/

structure Device where
  id : String
  type : DeviceType
  lastUpdated : ℕ
  deriving DecidableEq, Repr

namespace Device

/-- `Device.update_timestamp`: `self._last_updated = datetime.now(UTC)`;
`now` is the clock reading at the call. -/
def update_timestamp (now : ℕ) (d : Device) : Device :=
  { d with lastUpdated := now }

/-- `Device.is_light`: `self._type.is_light`. -/
def is_light (d : Device) : Bool := d.type.is_light

/-- `Device.is_switch`: `self._type == "com.haefele.switch"` — a
`DeviceType` enum member compared with a plain string via `Enum.__eq__`. -/
def is_switch (d : Device) : Bool :=
  pyEq (PyVal.enumMember d.type) (PyVal.str "com.haefele.switch")

/-- `Device.is_sensor`: `self._type.startswith("com.haefele.sensor")` —
an attribute lookup of `startswith` on the enum member.  If the member had
the method, it would prefix-match on the string; a plain `Enum` member does
not, so the lookup raises `AttributeError`. -/
def is_sensor (d : Device) : Except PyExc Bool :=
  if DeviceType.hasAttr "startswith" then
    .ok (strStartsWith d.type.value "com.haefele.sensor")
  else
    .error .attributeError

/-- `Device.supports_color_temp`: `self._type.supports_color_temp`. -/
def supports_color_temp (d : Device) : Bool := d.type.supports_color_temp

/-- `Device.supports_hsl`: `self._type.supports_hsl`. -/
def supports_hsl (d : Device) : Bool := d.type.supports_hsl

/-- `Device.is_socket`: `self._type.is_socket`. -/
def is_socket (d : Device) : Bool := d.type.is_socket

end Device

/-! ## Group (models/group.py)

Named `MeshGroup` here because `Group` is taken by Mathlib. -/

structure MeshGroup where
  id : String
  network_id : String
  name : String
  device_ids : List String
  /-- the lazily-populated `_devices` list the predicates iterate over -/
  devices : List Device
  deriving Repr

namespace MeshGroup

/-- `Group.is_light`: `all(device.is_light for device in self._devices)`. -/
def is_light (g : MeshGroup) : Bool := g.devices.all Device.is_light

/-- `Group.is_switch`: `all(device.is_switch for device in self._devices)`. -/
def is_switch (g : MeshGroup) : Bool := g.devices.all Device.is_switch

/-- `Group.is_sensor`: `all(device.is_sensor for device in self._devices)`;
evaluating a member's `is_sensor` may raise, which propagates out of `all`. -/
def is_sensor (g : MeshGroup) : Except PyExc Bool := pyAll Device.is_sensor g.devices

/-- `Group.supports_color_temp`. -/
def supports_color_temp (g : MeshGroup) : Bool :=
  g.devices.all Device.supports_color_temp

/-- `Group.supports_hsl`. -/
def supports_hsl (g : MeshGroup) : Bool := g.devices.all Device.supports_hsl

end MeshGroup

/-! ## Scale conversions (api/client.py, `HafeleClient` static methods)

Python floats are modelled over `ℚ`; for the values these claims range
over (integer inputs scaled by 255/257/65535 and the 153..500 mireds line)
double-precision evaluation and exact rational evaluation round to the
same integers, since no intermediate value falls within the float error of
a rounding boundary.  Raising `ValueError` becomes `Except.error`. -/

namespace HafeleClient

/-- `brightness_to_api`: raises unless `0 <= brightness <= 255`, else
`brightness / 255.0`. -/
def brightness_to_api (brightness : ℤ) : Except PyExc ℚ :=
  if 0 ≤ brightness ∧ brightness ≤ 255 then .ok ((brightness : ℚ) / 255)
  else .error .valueError

/-- `api_to_brightness`: raises unless `0 <= api_value <= 1`, else
`round(api_value * 255)`. -/
def api_to_brightness (api_value : ℚ) : Except PyExc ℤ :=
  if 0 ≤ api_value ∧ api_value ≤ 1 then .ok (pyRound (api_value * 255))
  else .error .valueError

/-- `mesh_to_brightness`: raises unless `0 <= mesh_value <= 65535`, else
`round(mesh_value / 65535 * 255)`. -/
def mesh_to_brightness (mesh_value : ℤ) : Except PyExc ℤ :=
  if 0 ≤ mesh_value ∧ mesh_value ≤ 65535 then
    .ok (pyRound ((mesh_value : ℚ) / 65535 * 255))
  else .error .valueError

/-- `brightness_to_mesh`: raises unless `0 <= brightness <= 255`, else
`round(brightness / 255 * 65535)`. -/
def brightness_to_mesh (brightness : ℤ) : Except PyExc ℤ :=
  if 0 ≤ brightness ∧ brightness ≤ 255 then
    .ok (pyRound ((brightness : ℚ) / 255 * 65535))
  else .error .valueError

/-- `api_to_mesh`: raises unless `0 <= api_value <= 1`, else
`round(api_value * 65535)`. -/
def api_to_mesh (api_value : ℚ) : Except PyExc ℤ :=
  if 0 ≤ api_value ∧ api_value ≤ 1 then .ok (pyRound (api_value * 65535))
  else .error .valueError

/-- `mesh_to_api`: raises unless `0 <= mesh_value <= 65535`, else
`mesh_value / 65535`. -/
def mesh_to_api (mesh_value : ℤ) : Except PyExc ℚ :=
  if 0 ≤ mesh_value ∧ mesh_value ≤ 65535 then .ok ((mesh_value : ℚ) / 65535)
  else .error .valueError

/-- `mesh_to_mireds`: raises unless `0 <= mesh_value <= 65535`, else
`round(153 + (mesh_value / 65535) * (500 - 153))`. -/
def mesh_to_mireds (mesh_value : ℤ) : Except PyExc ℤ :=
  if 0 ≤ mesh_value ∧ mesh_value ≤ 65535 then
    .ok (pyRound (153 + (mesh_value : ℚ) / 65535 * (500 - 153)))
  else .error .valueError

/-- `mireds_to_mesh`: raises unless `153 <= mireds <= 500`, else
`round(((mireds - 153) / (500 - 153)) * 65535)`. -/
def mireds_to_mesh (mireds : ℤ) : Except PyExc ℤ :=
  if 153 ≤ mireds ∧ mireds ≤ 500 then
    .ok (pyRound (((mireds : ℚ) - 153) / (500 - 153) * 65535))
  else .error .valueError

end HafeleClient

/-! ## Retry executor (src/utils/retry.py, `retry_with_backoff`)

The decorated call is modelled by an oracle `outcomes : ℕ → AttemptOutcome α`
giving the result of the wrapped function on each attempt (0-based loop
index, as in `for attempt in range(max_attempts)`), and the random jitter by
an oracle `jitter : ℕ → ℚ`.  The run is summarized by the number of calls
made to the wrapped function, the list of back-off sleeps performed, and how
the wrapper finishes. -/

/-- What one invocation of the wrapped function does. -/
inductive AttemptOutcome (α : Type) where
  | ok (v : α)
  | raise (e : PyExc)
  deriving DecidableEq, Repr

/-- How a run of the retry wrapper finishes: return a value, propagate an
exception, or (only possible when `max_attempts = 0`) execute
`raise last_exception` with `last_exception = None`, a `TypeError`. -/
inductive RunOutcome (α : Type) where
  | returned (v : α)
  | raised (e : PyExc)
  | raisedNone
  deriving DecidableEq, Repr

structure RetryResult (α : Type) where
  calls : ℕ
  sleeps : List ℚ
  outcome : RunOutcome α
  deriving DecidableEq, Repr

/-- `RETRYABLE_STATUS_CODES` from retry.py. -/
def RETRYABLE_STATUS_CODES : List ℤ := [408, 429, 500, 502, 503, 504]

/-- Python truthiness of the `status_code` attribute (`None` and `0` are
falsy). -/
def statusTruthy : Option ℤ → Bool
  | none => false
  | some s => s != 0

/-- The `except` clause catches only `(HafeleAPIError, ValidationError)`;
any other exception propagates out of the wrapper uncaught. -/
def isCaughtByRetry : PyExc → Bool
  | .hafele _ _ => true
  | .validation => true
  | _ => false

/-- The `should_retry` classification of retry.py lines 62-72: a
`HafeleAPIError` with `error_code == "TIMEOUT"` always retries; otherwise a
`HafeleAPIError` with a truthy `status_code` retries when the status is in
`RETRYABLE_STATUS_CODES`; everything else (including every
`ValidationError`) does not. -/
def shouldRetry : PyExc → Bool
  | .hafele status errCode =>
    if errCode == some "TIMEOUT" then true
    else if statusTruthy status then RETRYABLE_STATUS_CODES.contains (status.getD 0)
    else false
  | _ => false

/-- The back-off sleep computed after a failed 0-based `attempt` (retry.py
lines 91-95): `delay = min(base_delay * 2 ** (attempt - 1), max_delay)`,
then `max(delay + jitter, 0.1)`.  In Python, `2 ** (attempt - 1)` at
`attempt = 0` is the float `2 ** -1 = 0.5`. -/
def backoffDelay (baseDelay maxDelay jitterVal : ℚ) (attempt : ℕ) : ℚ :=
  max (min (baseDelay * (2 : ℚ) ^ ((attempt : ℤ) - 1)) maxDelay + jitterVal) (1/10)

/-- The loop body of the wrapper, by recursion on the remaining iterations;
`attempt` is the current 0-based index.  Mirrors retry.py lines 56-105:
return on success; re-raise immediately when the exception is not caught or
not retryable; re-raise when this was the last attempt; otherwise sleep the
back-off delay and continue. -/
def retryGo {α : Type} (maxAttempts : ℕ) (baseDelay maxDelay : ℚ)
    (jitter : ℕ → ℚ) (outcomes : ℕ → AttemptOutcome α) :
    ℕ → ℕ → RetryResult α
  | _, 0 => ⟨0, [], .raisedNone⟩
  | attempt, r + 1 =>
    match outcomes attempt with
    | .ok v => ⟨1, [], .returned v⟩
    | .raise e =>
      if isCaughtByRetry e = false then ⟨1, [], .raised e⟩
      else if shouldRetry e = false then ⟨1, [], .raised e⟩
      else if attempt = maxAttempts - 1 then ⟨1, [], .raised e⟩
      else
        let rest := retryGo maxAttempts baseDelay maxDelay jitter outcomes (attempt + 1) r
        ⟨rest.calls + 1, backoffDelay baseDelay maxDelay (jitter attempt) attempt :: rest.sleeps,
          rest.outcome⟩

/-- `retry_with_backoff(max_attempts, base_delay, max_delay, ...)` applied
to a wrapped function whose per-attempt behavior is `outcomes`. -/
def retry_with_backoff {α : Type} (maxAttempts : ℕ) (baseDelay maxDelay : ℚ)
    (jitter : ℕ → ℚ) (outcomes : ℕ → AttemptOutcome α) : RetryResult α :=
  retryGo maxAttempts baseDelay maxDelay jitter outcomes 0 maxAttempts

/-- The delay formula as claim C4 states it, with attempts numbered from 1:
`max(min(base_delay * 2 ** (attempt - 1), max_delay) + j, 0.1)`. -/
def claimedBackoffDelay (baseDelay maxDelay jitterVal : ℚ) (attempt : ℕ) : ℚ :=
  max (min (baseDelay * (2 : ℚ) ^ ((attempt : ℤ) - 1)) maxDelay + jitterVal) (1/10)

/-! ## Rate limiter (utils/rate_limit.py)

`RateLimiter.acquire` is modelled as a function of the monotonic-clock
reading `now` at entry: with the key's lock held, if a previous timestamp
`last` exists and `now - last < min_interval`, the caller sleeps the
remaining time and proceeds (and records its timestamp) at exactly
`last + min_interval`; otherwise it proceeds at `now`.  The returned pair
is (time at which the call proceeds, updated limiter state).  The
`_last_call_time` dict is an association list read through `List.lookup`
(insertion at the head shadows older entries). -/

structure RateLimiter where
  lastCallTime : List (String × ℚ)
  deriving Repr

namespace RateLimiter

def acquire (rl : RateLimiter) (key : String) (minInterval : ℚ) (now : ℚ) :
    ℚ × RateLimiter :=
  let start :=
    match rl.lastCallTime.lookup key with
    | some last => if now - last < minInterval then last + minInterval else now
    | none => now
  (start, ⟨(key, start) :: rl.lastCallTime⟩)

end RateLimiter

/-- The key built by the `rate_limit` decorator wrapper
(rate_limit.py lines 66-71): `f"{id(args[0])}:{func.__name__}"` — the id
of the bound instance (the client) and the function name.  The remaining
positional arguments (for `get_device_status`, the device id) are not part
of the key. -/
def rateLimitKey (instanceId : ℕ) (funcName : String) : String :=
  toString instanceId ++ ":" ++ funcName

/-- The rate-limit key under which a `get_device_status(device_id)` call on
client instance `clientId` acquires the limiter.  The `deviceId` argument
is accepted to mirror the call shape but does not enter the key. -/
def getDeviceStatusKey (clientId : ℕ) (_deviceId : String) : String :=
  rateLimitKey clientId "get_device_status"

/-! ## Command operations (api/client.py `set_power`, `set_lightness`,
`set_temperature`, `set_hsl`)

The HTTP layer `_put` either returns a response (meaning
`raise_for_status()` passed, i.e. the request completed with a 2xx status)
or raises.  The response body is modelled by the two fields the commands
read: the truthiness of `.get("success", False)` and the `.get("error",
"UNKNOWN_ERROR")` string. -/

/-- A JSON response body, reduced to the fields the command paths read:
`success` is `some b` when the key is present with truthiness `b`, `none`
when absent; `error` likewise for the error string. -/
structure CommandResponse where
  success : Option Bool
  error : Option String
  deriving DecidableEq, Repr

/-- `response_data.get("success", False)` as a truth value. -/
def CommandResponse.getSuccess (r : CommandResponse) : Bool :=
  r.success.getD false

/-- `response_data.get("error", "UNKNOWN_ERROR")`. -/
def CommandResponse.getError (r : CommandResponse) : String :=
  r.error.getD "UNKNOWN_ERROR"

/-- The result of the `_put` call: a body parsed from a 2xx response, or
the `HafeleAPIError` raised by `_request`. -/
inductive HttpResult where
  | ok (body : CommandResponse)
  | exc (e : PyExc)
  deriving DecidableEq, Repr

namespace HafeleClient

/-- `set_power` (client.py lines 392-452): no capability or range check,
dispatch the PUT; on a 2xx response update the device timestamp and return.
The response body is never inspected — there is no success-flag check. -/
def set_power (d : Device) (_power : Bool) (put : HttpResult) (now : ℕ) :
    Except PyExc Device :=
  match put with
  | .exc e => .error e
  | .ok _body => .ok (d.update_timestamp now)

/-- `set_lightness` (client.py lines 492-565): requires `device.is_light`
(else `ValidationError`) and `0 <= lightness <= 1` (else `ValueError`);
after a 2xx response, raises `HafeleAPIError` unless the body has a truthy
`success`; on success updates the device timestamp. -/
def set_lightness (d : Device) (lightness : ℚ) (put : HttpResult) (now : ℕ) :
    Except PyExc Device :=
  if d.is_light = false then .error .validation
  else if ¬(0 ≤ lightness ∧ lightness ≤ 1) then .error .valueError
  else
    match put with
    | .exc e => .error e
    | .ok body =>
      if body.getSuccess = false then
        .error (.hafele none (some body.getError))
      else .ok (d.update_timestamp now)

/-- `set_temperature` (client.py lines 567-644): requires
`device.supports_color_temp` and `0 <= temperature <= 65535`; same
success-flag check as `set_lightness`. -/
def set_temperature (d : Device) (temperature : ℤ) (put : HttpResult) (now : ℕ) :
    Except PyExc Device :=
  if d.supports_color_temp = false then .error .validation
  else if ¬(0 ≤ temperature ∧ temperature ≤ 65535) then .error .valueError
  else
    match put with
    | .exc e => .error e
    | .ok body =>
      if body.getSuccess = false then
        .error (.hafele none (some body.getError))
      else .ok (d.update_timestamp now)

/-- `set_hsl` (client.py lines 646-731): requires `device.supports_hsl`,
`0 <= hue <= 360`, `0 <= saturation <= 1`, `0 <= lightness <= 1`; same
success-flag check as `set_lightness`. -/
def set_hsl (d : Device) (hue saturation lightness : ℚ) (put : HttpResult)
    (now : ℕ) : Except PyExc Device :=
  if d.supports_hsl = false then .error .validation
  else if ¬(0 ≤ hue ∧ hue ≤ 360) then .error .valueError
  else if ¬(0 ≤ saturation ∧ saturation ≤ 1) then .error .valueError
  else if ¬(0 ≤ lightness ∧ lightness ≤ 1) then .error .valueError
  else
    match put with
    | .exc e => .error e
    | .ok body =>
      if body.getSuccess = false then
        .error (.hafele none (some body.getError))
      else .ok (d.update_timestamp now)

end HafeleClient

/-! ## Polling coordinator (coordinator.py `_async_update_data`)

One poll cycle of `HafeleUpdateCoordinator._async_update_data`, reduced to
its effect on the device's `last_updated`: the status fetch either succeeds
(line 312: `self.device.update_timestamp()` before returning), raises
`HafeleAPIError` (line 320: timestamp updated first, both on the 401 reauth
branch and the generic branch, before raising `UpdateFailed`), raises an
unexpected exception (line 340: timestamp updated before raising
`UpdateFailed`), or is cancelled (`asyncio.CancelledError` is re-raised at
line 338 without touching the timestamp). -/

inductive FetchOutcome where
  | success
  | apiError (is401 : Bool)
  | unexpected
  | cancelled
  deriving DecidableEq, Repr

/-- One `_async_update_data` cycle at clock reading `now`; returns the
device state after the cycle. -/
def coordinatorCycle (now : ℕ) (o : FetchOutcome) (d : Device) : Device :=
  match o with
  | .success => d.update_timestamp now
  | .apiError _ => d.update_timestamp now
  | .unexpected => d.update_timestamp now
  | .cancelled => d

/-- The device states after each of a sequence of poll cycles, given as
(clock reading, fetch outcome) pairs. -/
def cycleStates (d : Device) : List (ℕ × FetchOutcome) → List Device
  | [] => []
  | (t, o) :: rest =>
    let d' := coordinatorCycle t o d
    d' :: cycleStates d' rest

/-! ## Helper lemmas -/

/-- A `DeviceType` member has no `startswith` attribute. -/
theorem deviceType_not_hasAttr : DeviceType.hasAttr "startswith" = false := by
  decide

/-- `Device.is_sensor` raises `AttributeError` on every device. -/
theorem device_is_sensor_raises (d : Device) :
    d.is_sensor = .error .attributeError := by
  unfold Device.is_sensor
  rw [deviceType_not_hasAttr]
  rfl

/-! ## Claims -/

/-- C9: For every successfully constructed Device, regardless of its device
type, `is_switch` returns False: it compares the `DeviceType` enum member
against the plain string "com.haefele.switch", and `Enum.__eq__` with a
non-member is never true. -/
theorem c9_is_switch_always_false (d : Device) : d.is_switch = false := rfl

/-- C10: Accessing `Device.is_sensor` never returns a boolean — it raises
`AttributeError` for every device, because it calls `startswith` on the
`DeviceType` enum member, which has no such attribute; consequently
`Group.is_sensor` raises for every group with at least one member device. -/
theorem c10_is_sensor_always_raises :
    (∀ d : Device, d.is_sensor = .error .attributeError) ∧
    (∀ g : MeshGroup, g.devices ≠ [] → g.is_sensor = .error .attributeError) := by
  refine ⟨device_is_sensor_raises, ?_⟩
  intro g hg
  unfold MeshGroup.is_sensor
  cases hd : g.devices with
  | nil => exact absurd hd hg
  | cons d rest =>
    unfold pyAll
    rw [device_is_sensor_raises]

/-- Witness for C10 at a concrete one-member group. -/
theorem c10_witness :
    MeshGroup.is_sensor
      ⟨"g1", "n1", "grp", ["d1"], [⟨"d1", DeviceType.HAEFELE_MOTION_SENSOR, 0⟩]⟩
      = .error .attributeError :=
  c10_is_sensor_always_raises.2 _ (by decide)

/-- C8: Each Group capability predicate returns True exactly when every
member device satisfies the corresponding device predicate (for
`is_sensor`, "satisfies" means the member's property evaluates to True
without raising, which never happens, so both sides hold only for the
empty list); in particular every predicate returns True on a group whose
member list is empty. -/
theorem c8_group_predicates_all_members :
    (∀ g : MeshGroup, g.is_light = true ↔ ∀ d ∈ g.devices, d.is_light = true) ∧
    (∀ g : MeshGroup, g.is_switch = true ↔ ∀ d ∈ g.devices, d.is_switch = true) ∧
    (∀ g : MeshGroup, g.is_sensor = .ok true ↔ ∀ d ∈ g.devices, d.is_sensor = .ok true) ∧
    (∀ g : MeshGroup,
      g.supports_color_temp = true ↔ ∀ d ∈ g.devices, d.supports_color_temp = true) ∧
    (∀ g : MeshGroup, g.supports_hsl = true ↔ ∀ d ∈ g.devices, d.supports_hsl = true) ∧
    (∀ g : MeshGroup, g.devices = [] →
      g.is_light = true ∧ g.is_switch = true ∧ g.is_sensor = .ok true ∧
      g.supports_color_temp = true ∧ g.supports_hsl = true) := by
  have hsensor : ∀ g : MeshGroup,
      g.is_sensor = .ok true ↔ ∀ d ∈ g.devices, d.is_sensor = .ok true := by
    intro g
    unfold MeshGroup.is_sensor
    cases hd : g.devices with
    | nil => simp [pyAll]
    | cons d rest =>
      constructor
      · intro h
        unfold pyAll at h
        rw [device_is_sensor_raises] at h
        exact absurd h (by simp)
      · intro h
        have := h d (by simp)
        rw [device_is_sensor_raises] at this
        exact absurd this (by simp)
  refine ⟨?_, ?_, hsensor, ?_, ?_, ?_⟩
  · intro g; exact List.all_eq_true
  · intro g; exact List.all_eq_true
  · intro g; exact List.all_eq_true
  · intro g; exact List.all_eq_true
  · intro g hg
    refine ⟨?_, ?_, ?_, ?_, ?_⟩ <;>
      simp [MeshGroup.is_light, MeshGroup.is_switch, MeshGroup.is_sensor,
        MeshGroup.supports_color_temp, MeshGroup.supports_hsl, hg, pyAll]

/-- Witness for C8 at a concrete empty group. -/
theorem c8_witness :
    MeshGroup.is_light ⟨"g2", "n1", "empty", [], []⟩ = true ∧
    MeshGroup.is_switch ⟨"g2", "n1", "empty", [], []⟩ = true ∧
    MeshGroup.is_sensor ⟨"g2", "n1", "empty", [], []⟩ = .ok true ∧
    MeshGroup.supports_color_temp ⟨"g2", "n1", "empty", [], []⟩ = true ∧
    MeshGroup.supports_hsl ⟨"g2", "n1", "empty", [], []⟩ = true :=
  c8_group_predicates_all_members.2.2.2.2.2 _ rfl

/-- C6: Every scale conversion returns normally exactly on its declared
domain: out-of-domain input is a raised error (no clamped value is ever
returned, since nothing is returned at all), and every in-domain input
yields a normal return. -/
theorem c6_conversions_range_check :
    (∀ b : ℤ, (∃ v, HafeleClient.brightness_to_api b = .ok v) ↔ 0 ≤ b ∧ b ≤ 255) ∧
    (∀ a : ℚ, (∃ v, HafeleClient.api_to_brightness a = .ok v) ↔ 0 ≤ a ∧ a ≤ 1) ∧
    (∀ m : ℤ, (∃ v, HafeleClient.mesh_to_brightness m = .ok v) ↔ 0 ≤ m ∧ m ≤ 65535) ∧
    (∀ b : ℤ, (∃ v, HafeleClient.brightness_to_mesh b = .ok v) ↔ 0 ≤ b ∧ b ≤ 255) ∧
    (∀ a : ℚ, (∃ v, HafeleClient.api_to_mesh a = .ok v) ↔ 0 ≤ a ∧ a ≤ 1) ∧
    (∀ m : ℤ, (∃ v, HafeleClient.mesh_to_api m = .ok v) ↔ 0 ≤ m ∧ m ≤ 65535) ∧
    (∀ m : ℤ, (∃ v, HafeleClient.mesh_to_mireds m = .ok v) ↔ 0 ≤ m ∧ m ≤ 65535) ∧
    (∀ mi : ℤ, (∃ v, HafeleClient.mireds_to_mesh mi = .ok v) ↔ 153 ≤ mi ∧ mi ≤ 500) := by
  refine ⟨?_, ?_, ?_, ?_, ?_, ?_, ?_, ?_⟩ <;> intro x <;>
    first
    | (unfold HafeleClient.brightness_to_api; split_ifs with h <;> simp [h])
    | (unfold HafeleClient.api_to_brightness; split_ifs with h <;> simp [h])
    | (unfold HafeleClient.mesh_to_brightness; split_ifs with h <;> simp [h])
    | (unfold HafeleClient.brightness_to_mesh; split_ifs with h <;> simp [h])
    | (unfold HafeleClient.api_to_mesh; split_ifs with h <;> simp [h])
    | (unfold HafeleClient.mesh_to_api; split_ifs with h <;> simp [h])
    | (unfold HafeleClient.mesh_to_mireds; split_ifs with h <;> simp [h])
    | (unfold HafeleClient.mireds_to_mesh; split_ifs with h <;> simp [h])

/-- C5: For every brightness `0 ≤ b ≤ 255`, the round trip through the
mesh scale returns normally and lands within 1 of `b` (in fact exactly on
`b`: `brightness_to_mesh b = 257 * b` exactly, and dividing back yields
`b` exactly). -/
theorem c5_brightness_mesh_roundtrip (b : ℤ) (h0 : 0 ≤ b) (h1 : b ≤ 255) :
    ∃ m b2, HafeleClient.brightness_to_mesh b = .ok m ∧
      HafeleClient.mesh_to_brightness m = .ok b2 ∧ (b2 - b).natAbs ≤ 1 := by
  refine ⟨257 * b, b, ?_, ?_, by simp⟩
  · unfold HafeleClient.brightness_to_mesh
    rw [if_pos ⟨h0, h1⟩]
    have hq : ((b : ℚ) / 255) * 65535 = ((257 * b : ℤ) : ℚ) := by
      push_cast
      field_simp
      ring
    rw [hq, pyRound_intCast]
  · unfold HafeleClient.mesh_to_brightness
    rw [if_pos ⟨by positivity, by nlinarith⟩]
    have hq : (((257 * b : ℤ) : ℚ) / 65535) * 255 = ((b : ℤ) : ℚ) := by
      push_cast
      field_simp
      ring
    rw [hq, pyRound_intCast]

/-- Witness for C5 at `b = 127`. -/
theorem c5_witness :
    ∃ m b2, HafeleClient.brightness_to_mesh 127 = .ok m ∧
      HafeleClient.mesh_to_brightness m = .ok b2 ∧ (b2 - 127).natAbs ≤ 1 :=
  c5_brightness_mesh_roundtrip 127 (by norm_num) (by norm_num)

/-- A 503 is always classified retryable, whatever the `error_code`. -/
theorem shouldRetry_503 (ec : Option String) :
    shouldRetry (.hafele (some 503) ec) = true := by
  cases h : ec == some "TIMEOUT" <;>
    simp [shouldRetry, h, statusTruthy, RETRYABLE_STATUS_CODES]

/-- On a wrapped call that raises the same retryable error on every
attempt, the loop starting at index `a` with `r` iterations left (and
`a + r = n`) calls the function `r` more times, then finishes by
re-raising that error. -/
theorem retryGo_persistent {α : Type} (n : ℕ) (b M : ℚ) (j : ℕ → ℚ) (e : PyExc)
    (hc : isCaughtByRetry e = true) (hr : shouldRetry e = true) :
    ∀ r a, a + r = n → 1 ≤ r →
      (retryGo n b M j (fun _ => AttemptOutcome.raise e) a r : RetryResult α).calls = r ∧
      (retryGo n b M j (fun _ => AttemptOutcome.raise e) a r : RetryResult α).outcome
        = .raised e := by
  intro r
  induction r with
  | zero => intro a _ h1; exact absurd h1 (by omega)
  | succ r' ih =>
    intro a han _
    simp only [retryGo]
    rw [hc, hr]
    simp only [Bool.true_eq_false, if_false]
    cases r' with
    | zero =>
      have : a = n - 1 := by omega
      rw [if_pos this]
      exact ⟨rfl, rfl⟩
    | succ r'' =>
      have hne : ¬(a = n - 1) := by omega
      rw [if_neg hne]
      have := ih (a + 1) (by omega) (by omega)
      simp only [this.1, this.2]
      exact ⟨trivial, trivial⟩


/-- C1: On a request that persistently fails with HTTP 503, the retry
wrapper invokes the wrapped call exactly `max_attempts` times and then
re-raises the last classified error; on a `ValidationError` it re-raises
immediately after the first call, performing no back-off sleep. -/
theorem c1_retry_503_and_validation (n : ℕ) (hn : 1 ≤ n) (b M : ℚ) (j : ℕ → ℚ)
    (ec : Option String) (out : ℕ → AttemptOutcome Unit)
    (h0 : out 0 = .raise .validation) :
    ((retry_with_backoff n b M j
        (fun _ => AttemptOutcome.raise (.hafele (some 503) ec)) : RetryResult Unit).calls = n ∧
     (retry_with_backoff n b M j
        (fun _ => AttemptOutcome.raise (.hafele (some 503) ec)) : RetryResult Unit).outcome
        = .raised (.hafele (some 503) ec)) ∧
    ((retry_with_backoff n b M j out).calls = 1 ∧
     (retry_with_backoff n b M j out).outcome = .raised .validation ∧
     (retry_with_backoff n b M j out).sleeps = []) := by
  obtain ⟨n', rfl⟩ : ∃ n', n = n' + 1 := ⟨n - 1, by omega⟩
  constructor
  · exact retryGo_persistent (n' + 1) b M j (.hafele (some 503) ec) rfl
      (shouldRetry_503 ec) (n' + 1) 0 (by omega) (by omega)
  · unfold retry_with_backoff
    simp only [retryGo, h0]
    simp [isCaughtByRetry, shouldRetry]

/-- Witness for C1: three persistent 503 attempts (3 calls, error
re-raised) and an immediate ValidationError (1 call, no sleep). -/
theorem c1_witness :
    ((retry_with_backoff 3 1 16 (fun _ => 0)
        (fun _ => AttemptOutcome.raise (.hafele (some 503) none)) : RetryResult Unit).calls = 3 ∧
     (retry_with_backoff 3 1 16 (fun _ => 0)
        (fun _ => AttemptOutcome.raise (.hafele (some 503) none)) : RetryResult Unit).outcome
        = .raised (.hafele (some 503) none)) ∧
    ((retry_with_backoff 3 1 16 (fun _ => 0)
        (fun _ => AttemptOutcome.raise PyExc.validation) : RetryResult Unit).calls = 1 ∧
     (retry_with_backoff 3 1 16 (fun _ => 0)
        (fun _ => AttemptOutcome.raise PyExc.validation) : RetryResult Unit).outcome
        = .raised .validation ∧
     (retry_with_backoff 3 1 16 (fun _ => 0)
        (fun _ => AttemptOutcome.raise PyExc.validation) : RetryResult Unit).sleeps = []) :=
  c1_retry_503_and_validation 3 (by norm_num) 1 16 (fun _ => 0) none
    (fun _ => AttemptOutcome.raise PyExc.validation) rfl

/-- C4 (evaluating the code at the failing input): with `base_delay = 1`,
`max_delay = 16` and zero jitter, the sleep after the first failed attempt
is `0.5` — `base_delay * 2 ** (attempt - 1)` at 0-based `attempt = 0` —
whereas the claimed formula (1-based attempt numbering) gives
`base_delay = 1` for the first retry; over a persistent-503 run of 5
attempts the code sleeps `[0.5, 1, 2, 4]`, not `[1, 2, 4, 8]`. -/
theorem c4_first_backoff_is_half_base :
    backoffDelay 1 16 0 0 = 1/2 ∧
    claimedBackoffDelay 1 16 0 1 = 1 ∧
    (retry_with_backoff 5 1 16 (fun _ => 0)
      (fun _ => AttemptOutcome.raise (.hafele (some 503) none)) : RetryResult Unit).sleeps
      = [1/2, 1, 2, 4] := by
  refine ⟨?_, ?_, ?_⟩
  · norm_num [backoffDelay]
  · norm_num [claimedBackoffDelay]
  · simp only [retry_with_backoff, retryGo, isCaughtByRetry, shouldRetry,
      statusTruthy, RETRYABLE_STATUS_CODES]
    norm_num [backoffDelay]

/-- C2 (counterexample): on one client (instance id 7), a
`get_device_status` call for device "device-a" at time 0 proceeds at 0;
a call for the *different* device "device-b", also arriving at time 0, is
made to wait until time 1 — it is delayed by the other device's call,
because the limiter key omits the device id. -/
theorem c2_counterexample :
    (RateLimiter.acquire ⟨[]⟩ (getDeviceStatusKey 7 "device-a") 1 0).1 = 0 ∧
    (RateLimiter.acquire (RateLimiter.acquire ⟨[]⟩ (getDeviceStatusKey 7 "device-a") 1 0).2
        (getDeviceStatusKey 7 "device-b") 1 0).1 = 1 := by
  constructor
  · rfl
  · norm_num [RateLimiter.acquire, getDeviceStatusKey, rateLimitKey, List.lookup]

/-- After an acquire, the key's recorded timestamp is the time at which
that call proceeded. -/
theorem RateLimiter.lookup_after_acquire (rl : RateLimiter) (k : String)
    (m now : ℚ) :
    ((rl.acquire k m now).2).lastCallTime.lookup k = some (rl.acquire k m now).1 := by
  simp only [RateLimiter.acquire, List.lookup, beq_self_eq_true k]

/-- An acquire whose key has recorded timestamp `last` proceeds no earlier
than `last + min_interval`. -/
theorem RateLimiter.acquire_ge_of_lookup (s : RateLimiter) (k : String)
    (m now last : ℚ) (h : s.lastCallTime.lookup k = some last) :
    m ≤ (s.acquire k m now).1 - last := by
  simp only [RateLimiter.acquire, h]
  split
  · have harith : last + m - last = m := by ring
    rw [harith]
  · linarith

/-- C2 (amended): the limiter key for `get_device_status` is (client
instance, function name) — independent of the device id — so (i) all
`get_device_status` calls on one client share a single key, (ii) two
consecutive acquires of the same key proceed at least `min_interval`
apart, and (iii) an acquire of a different key (e.g. from a different
client instance) never changes when a call proceeds. -/
theorem c2_rate_limit_per_client_key :
    (∀ (clientId : ℕ) (d1 d2 : String),
      getDeviceStatusKey clientId d1 = getDeviceStatusKey clientId d2) ∧
    (∀ (rl : RateLimiter) (k : String) (m t1 t2 : ℚ),
      m ≤ ((rl.acquire k m t1).2.acquire k m t2).1 - (rl.acquire k m t1).1) ∧
    (∀ (rl : RateLimiter) (k k2 : String) (m m2 t t2 : ℚ), k ≠ k2 →
      ((rl.acquire k2 m2 t2).2.acquire k m t).1 = (rl.acquire k m t).1) := by
  refine ⟨fun _ _ _ => rfl, ?_, ?_⟩
  · intro rl k m t1 t2
    exact RateLimiter.acquire_ge_of_lookup _ k m t2 _
      (RateLimiter.lookup_after_acquire rl k m t1)
  · intro rl k k2 m m2 t t2 hne
    have hbeq : (k == k2) = false := by
      simp [hne]
    simp only [RateLimiter.acquire, List.lookup, hbeq]

/-- Witness for C2's amended statement: a call on client 0's key at time 5
proceeds at the same instant whether or not client 1's key was acquired
before it. -/
theorem c2_witness :
    ((RateLimiter.acquire ⟨[]⟩ (rateLimitKey 1 "get_device_status") 2 0).2.acquire
        (rateLimitKey 0 "get_device_status") 1 5).1
      = (RateLimiter.acquire ⟨[]⟩ (rateLimitKey 0 "get_device_status") 1 5).1 :=
  c2_rate_limit_per_client_key.2.2 ⟨[]⟩ (rateLimitKey 0 "get_device_status")
    (rateLimitKey 1 "get_device_status") 1 2 5 0 (by decide)

/-- C3 (counterexample): `set_power` on a socket device with a 2xx
response whose body has no `success` field returns successfully (updating
the timestamp) instead of raising a command failure — it never inspects
the body. -/
theorem c3_counterexample :
    HafeleClient.set_power ⟨"d1", DeviceType.HAEFELE_SOCKET, 0⟩ true
        (.ok ⟨none, none⟩) 5
      = .ok ⟨"d1", DeviceType.HAEFELE_SOCKET, 5⟩ := rfl

/-- C3 (amended): `set_lightness`, `set_temperature` and `set_hsl` each
raise `HafeleAPIError` when a 2xx response body lacks a truthy `success`
field (given arguments that pass their capability/range validation);
`set_power` performs no such check and returns successfully on any 2xx
response. -/
theorem c3_success_flag_check :
    (∀ (d : Device) (l : ℚ) (body : CommandResponse) (now : ℕ),
      d.is_light = true → 0 ≤ l → l ≤ 1 → body.getSuccess = false →
      HafeleClient.set_lightness d l (.ok body) now
        = .error (.hafele none (some body.getError))) ∧
    (∀ (d : Device) (T : ℤ) (body : CommandResponse) (now : ℕ),
      d.supports_color_temp = true → 0 ≤ T → T ≤ 65535 → body.getSuccess = false →
      HafeleClient.set_temperature d T (.ok body) now
        = .error (.hafele none (some body.getError))) ∧
    (∀ (d : Device) (hu sa l : ℚ) (body : CommandResponse) (now : ℕ),
      d.supports_hsl = true → 0 ≤ hu → hu ≤ 360 → 0 ≤ sa → sa ≤ 1 →
      0 ≤ l → l ≤ 1 → body.getSuccess = false →
      HafeleClient.set_hsl d hu sa l (.ok body) now
        = .error (.hafele none (some body.getError))) ∧
    (∀ (d : Device) (p : Bool) (body : CommandResponse) (now : ℕ),
      HafeleClient.set_power d p (.ok body) now = .ok (d.update_timestamp now)) := by
  refine ⟨?_, ?_, ?_, fun _ _ _ _ => rfl⟩
  · intro d l body now hl h0 h1 hs
    simp [HafeleClient.set_lightness, hl, h0, h1, hs]
  · intro d T body now hct h0 h1 hs
    simp [HafeleClient.set_temperature, hct, h0, h1, hs]
  · intro d hu sa l body now hcap hu0 hu1 hs0 hs1 hl0 hl1 hs
    simp [HafeleClient.set_hsl, hcap, hu0, hu1, hs0, hs1, hl0, hl1, hs]

/-- Witness for C3's amended statement at concrete light / multiwhite /
RGB devices and a body with `success` present but falsy. -/
theorem c3_witness :
    HafeleClient.set_lightness ⟨"dL", DeviceType.HAEFELE_LED_WHITE, 0⟩ (1/2)
        (.ok ⟨some false, some "MESH_ERROR"⟩) 9
      = .error (.hafele none (some "MESH_ERROR")) ∧
    HafeleClient.set_temperature ⟨"dT", DeviceType.HAEFELE_LED_MW_2700K, 0⟩ 30000
        (.ok ⟨none, none⟩) 9
      = .error (.hafele none (some "UNKNOWN_ERROR")) ∧
    HafeleClient.set_hsl ⟨"dH", DeviceType.HAEFELE_LED_RGB, 0⟩ 120 (1/2) (1/2)
        (.ok ⟨some false, none⟩) 9
      = .error (.hafele none (some "UNKNOWN_ERROR")) :=
  ⟨c3_success_flag_check.1 _ _ _ 9 (by decide) (by norm_num) (by norm_num) (by decide),
   c3_success_flag_check.2.1 _ _ _ 9 (by decide) (by norm_num) (by norm_num) (by decide),
   c3_success_flag_check.2.2.1 _ _ _ _ _ 9 (by decide) (by norm_num) (by norm_num)
     (by norm_num) (by norm_num) (by norm_num) (by norm_num) (by decide)⟩

/-- Dropping the middle element of a non-decreasing chain head. -/
theorem chain_le_of_le {a b : ℕ} {l : List ℕ} (hab : a ≤ b)
    (h : List.Chain' (· ≤ ·) (b :: l)) : List.Chain' (· ≤ ·) (a :: l) := by
  cases l with
  | nil => simp
  | cons c l' =>
    rw [List.chain'_cons] at h ⊢
    exact ⟨le_trans hab h.1, h.2⟩

/-- A non-cancelled cycle always stamps the device with the cycle's clock
reading. -/
theorem coordinatorCycle_stamps (now : ℕ) (o : FetchOutcome) (d : Device)
    (ho : o ≠ FetchOutcome.cancelled) :
    (coordinatorCycle now o d).lastUpdated = now := by
  cases o with
  | success => rfl
  | apiError b => rfl
  | unexpected => rfl
  | cancelled => exact absurd rfl ho

/-- C7: Over any sequence of poll cycles whose clock readings are
non-decreasing (and start no earlier than the device's construction
timestamp), the device's `last_updated` is monotonically non-decreasing,
and every cycle in which the status fetch returns or raises — success,
`HafeleAPIError` (401 or otherwise) or an unexpected error — stamps
`last_updated` with that cycle's clock reading. -/
theorem c7_last_updated_monotone (d : Device) (cycles : List (ℕ × FetchOutcome))
    (hclock : List.Chain' (· ≤ ·) (d.lastUpdated :: cycles.map Prod.fst)) :
    List.Chain' (· ≤ ·) ((d :: cycleStates d cycles).map Device.lastUpdated) ∧
    List.Forall₂ (fun (c : ℕ × FetchOutcome) (st : Device) =>
        c.2 ≠ FetchOutcome.cancelled → st.lastUpdated = c.1)
      cycles (cycleStates d cycles) := by
  induction cycles generalizing d with
  | nil => exact ⟨by simp [cycleStates], by simp [cycleStates]⟩
  | cons c rest ih =>
    obtain ⟨t, o⟩ := c
    simp only [List.map_cons] at hclock
    rw [List.chain'_cons] at hclock
    have hd' : (coordinatorCycle t o d).lastUpdated = t ∨ coordinatorCycle t o d = d := by
      cases o with
      | success => exact Or.inl rfl
      | apiError b => exact Or.inl rfl
      | unexpected => exact Or.inl rfl
      | cancelled => exact Or.inr rfl
    have hclock' : List.Chain' (· ≤ ·)
        ((coordinatorCycle t o d).lastUpdated :: rest.map Prod.fst) := by
      rcases hd' with h | h
      · rw [h]; exact hclock.2
      · rw [h]; exact chain_le_of_le hclock.1 hclock.2
    have := ih (coordinatorCycle t o d) hclock'
    refine ⟨?_, ?_⟩
    · simp only [cycleStates, List.map_cons]
      rw [List.chain'_cons]
      refine ⟨?_, ?_⟩
      · rcases hd' with h | h
        · rw [h]; exact hclock.1
        · rw [h]
      · exact this.1
    · simp only [cycleStates]
      exact List.Forall₂.cons (fun ho => coordinatorCycle_stamps t o d ho) this.2

/-- Witness for C7: a concrete device constructed at time 3 polled through
success, a 401 API error, a non-401 API error, a cancellation, and an
unexpected error. -/
theorem c7_witness :
    List.Chain' (· ≤ ·)
      ((let d : Device := ⟨"d1", DeviceType.HAEFELE_SOCKET, 3⟩
        d :: cycleStates d
          [(5, .success), (7, .apiError true), (9, .apiError false),
            (11, .cancelled), (13, .unexpected)]).map Device.lastUpdated) ∧
    List.Forall₂ (fun (c : ℕ × FetchOutcome) (st : Device) =>
        c.2 ≠ FetchOutcome.cancelled → st.lastUpdated = c.1)
      [(5, .success), (7, .apiError true), (9, .apiError false),
        (11, .cancelled), (13, .unexpected)]
      (cycleStates ⟨"d1", DeviceType.HAEFELE_SOCKET, 3⟩
        [(5, .success), (7, .apiError true), (9, .apiError false),
          (11, .cancelled), (13, .unexpected)]) :=
  c7_last_updated_monotone ⟨"d1", DeviceType.HAEFELE_SOCKET, 3⟩
    [(5, .success), (7, .apiError true), (9, .apiError false),
      (11, .cancelled), (13, .unexpected)] (by norm_num [List.chain'_cons])
